import Mathlib

/-!
# Verification of `src/small_gicp_relocalization.cpp`

Shallow embedding of the `SmallGicpRelocalizationNode` class from
`src/src/small_gicp_relocalization.cpp`.

The node is a ROS 2 component with four handlers translated below:

* the constructor (`initNode`), lines 19-72: declares/reads parameters,
  allocates empty clouds, loads the global map, preprocesses it into the
  target cloud and its KdTree, and registers the scan subscription and the
  2 Hz registration timer and the 20 Hz publish timer (the timers and
  subscription are represented by the `Event` trace semantics);
* `loadGlobalMap`, lines 76-83;
* `registeredPcdCallback`, lines 85-103;
* `performRegistration`, lines 110-128;
* `publishTransform`, lines 135-158.

External collaborators (the small_gicp library's voxel-grid sampling,
covariance estimation and `Registration::align`, and pcl's PCD loader) are
not code of this repository: they are modelled as an `Env` of oracle
functions, and every invocation of one of them, together with every log
line and every broadcast transform, is recorded in a list of `Effect`s so
that theorems can speak about what the node does, for every possible
behaviour of the external library.

Numeric conventions: machine floating-point values (`double`, `float`,
Eigen matrices) are modelled as exact rationals.  `Eigen::Matrix4f` is
`Mat4 := Fin 4 → Fin 4 → ℚ`; `Eigen::Isometry3d` is `Iso3` (a 3×3 linear
block plus a translation), whose `.matrix()` always carries the bottom row
(0,0,0,1).  Eigen's `isZero()` uses a small tolerance; the exact-zero test
used here discriminates the same matrices in every claim below, because
the discriminating entry is the homogeneous 1.
-/

set_option autoImplicit false
set_option maxHeartbeats 1000000
set_option maxRecDepth 4000

/-- ROS time stamps (`msg->header.stamp`, `last_scan_time_`), modelled as
naturals; a default-constructed `rclcpp::Time` is 0. -/
abbrev Time := Nat

/-- A 3D point (`pcl::PointXYZ`). -/
abbrev Point3 := ℚ × ℚ × ℚ

/-- `pcl::PointCloud<pcl::PointXYZ>`: an ordered list of points. -/
abbrev Cloud := List Point3

/-- A point of `pcl::PointCloud<pcl::PointCovariance>`: position plus the
estimated local covariance block. -/
structure CovPoint where
  pos : Point3
  cov : Fin 3 → Fin 3 → ℚ

/-- `pcl::PointCloud<pcl::PointCovariance>`. -/
abbrev CovCloud := List CovPoint

/-- `small_gicp::KdTree` over a covariance cloud.  The index is modelled
as the record of the cloud it was built over: the search structure itself
is external-library internals, and what the node's code depends on is the
pairing between a cloud and the index built from it. -/
structure KdTree where
  indexed : CovCloud

/-- `small_gicp::KdTree` construction with `KdTreeBuilderOMP(num_threads)`:
the thread count bounds parallelism only, not the result. -/
def buildKdTree (c : CovCloud) (threads : ℤ) : KdTree :=
  let _ := threads
  { indexed := c }

/-- `Eigen::Matrix4f` (`result_T_`), entries as exact rationals. -/
abbrev Mat4 := Fin 4 → Fin 4 → ℚ

/-- The all-zero 4×4 matrix: the value of a zero-initialized
`Eigen::Matrix4f`. -/
def zeroMat4 : Mat4 := fun _ _ => 0

/-- `Eigen::MatrixBase::isZero()` (line 137).  Eigen tests each entry
against a small tolerance; since every matrix this code stores has an
exact 1 in the corner, the exact test is equivalent for this program. -/
def Mat4.isZero (M : Mat4) : Bool := decide (∀ i j, M i j = 0)

/-- `Eigen::Isometry3d`: a rigid transform held as a 3×3 linear block and
a translation 3-vector. -/
structure Iso3 where
  linear : Fin 3 → Fin 3 → ℚ
  trans : Fin 3 → ℚ
deriving DecidableEq

/-- `Eigen::Isometry3d::Identity()`. -/
def Iso3.id : Iso3 :=
  { linear := fun i j => if i = j then 1 else 0
    trans := fun _ => 0 }

/-- `Eigen::Isometry3d::matrix()`: the homogeneous 4×4 matrix, whose
bottom row is always (0,0,0,1).  (Line 127 casts this to `float`; the
cast is the identity in the exact-rational model.) -/
def Iso3.matrix (T : Iso3) : Mat4 := fun i j =>
  if hi : (i : ℕ) < 3 then
    if hj : (j : ℕ) < 3 then T.linear ⟨i, hi⟩ ⟨j, hj⟩
    else T.trans ⟨i, hi⟩
  else
    if (j : ℕ) < 3 then 0 else 1

/-- `small_gicp::RegistrationResult`, restricted to the two fields the
node reads: `converged` and `T_target_source`. -/
structure RegResult where
  converged : Bool
  T_target_source : Iso3
deriving DecidableEq

/-- The node's configuration after parameter resolution (lines 31-38). -/
structure Config where
  num_threads : ℤ
  num_neighbors : ℤ
  global_leaf_size : ℚ
  registered_leaf_size : ℚ
  max_dist_sq : ℚ
  map_frame_id : String
  odom_frame_id : String
  prior_pcd_file : String
deriving DecidableEq

/-- Externally supplied parameter overrides: `none` means the parameter
was not set, so `declare_parameter`'s default applies. -/
structure Params where
  num_threads : Option ℤ
  num_neighbors : Option ℤ
  global_leaf_size : Option ℚ
  registered_leaf_size : Option ℚ
  max_dist_sq : Option ℚ
  map_frame_id : Option String
  odom_frame_id : Option String
  prior_pcd_file : Option String

/-- Lines 22-38: `declare_parameter` with the listed defaults followed by
`get_parameter` into the member fields.  No validation is performed. -/
def getConfig (p : Params) : Config :=
  { num_threads := p.num_threads.getD 4
    num_neighbors := p.num_neighbors.getD 20
    global_leaf_size := p.global_leaf_size.getD 0.25
    registered_leaf_size := p.registered_leaf_size.getD 0.25
    max_dist_sq := p.max_dist_sq.getD 1.0
    map_frame_id := p.map_frame_id.getD "map"
    odom_frame_id := p.odom_frame_id.getD "odom"
    prior_pcd_file := p.prior_pcd_file.getD "" }

/-- An incoming `sensor_msgs::msg::PointCloud2`: its header stamp and its
points. -/
structure ScanMsg where
  stamp : Time
  cloud : Cloud

/-- `geometry_msgs::msg::TransformStamped` as filled in lines 141-155.
The source re-encodes the rotation block as a unit quaternion
(`Eigen::Quaternionf` of the 3×3 block); that conversion involves square
roots, so the message here carries the 3×3 block itself — a lossless
stand-in, since the quaternion is a function of the block alone. -/
structure TransformStamped where
  stamp : Time
  frame_id : String
  child_frame_id : String
  translation : Fin 3 → ℚ
  rotation : Fin 3 → Fin 3 → ℚ
deriving DecidableEq

/-- Observable interactions of the node with the outside world: calls
into the external libraries, log lines, and broadcast transforms. -/
inductive Effect where
  | loadPCDCall (path : String)
  | logError (msg : String)
  | logInfo (msg : String)
  | logWarn (msg : String)
  | alignCall (guess : Iso3)
  | sendTransform (t : TransformStamped)
deriving DecidableEq

/-- The node's mutable member state.

The class declaration lives in the header
`small_gicp_relocalization.hpp`, which is not part of `src/`; the fields
and their types are reconstructed from their uses in the `.cpp` file.

`ghost_result_stamp` is a specification-only ghost field, not present in
the source: it records the value of `last_scan_time_` at the moment
`result_T_` was stored (i.e. the stamp of the scan whose snapshot the
convergent alignment consumed — the two are set together by
`registeredPcdCallback`, so at alignment time `last_scan_time_` is the
stamp of the current source snapshot).  It is written exactly where
`result_T_` is written and read by no definition, only by theorems. -/
structure NodeState where
  cfg : Config
  registered_scan : Cloud
  global_map : Cloud
  target : CovCloud
  target_tree : KdTree
  source : Option CovCloud
  source_tree : Option KdTree
  last_scan_time : Time
  result_T : Mat4
  reg_num_threads : ℤ
  reg_max_dist_sq : ℚ
  ghost_result_stamp : Option Time

/-- The external collaborators (pcl's PCD loader and the small_gicp
library), as oracle functions: the node's theorems quantify over every
possible behaviour of these.  `align`'s arguments mirror the call on
line 120 plus the two `register_` settings written on lines 116-117:
target cloud, source cloud, target KdTree, initial guess, reduction
thread count, rejector `max_dist_sq`. -/
structure Env where
  loadPCD : String → Option Cloud
  voxelgrid_sampling : Cloud → ℚ → CovCloud
  estimate_covariances : CovCloud → ℤ → ℤ → CovCloud
  align : CovCloud → CovCloud → KdTree → Iso3 → ℤ → ℚ → RegResult

/-- Lines 76-83: try to load the PCD file into `global_map_`; on failure
log an error and return (leaving the previously allocated empty cloud);
on success log the point count. -/
def loadGlobalMap (env : Env) (st : NodeState) (file_name : String) :
    NodeState × List Effect :=
  match env.loadPCD file_name with
  | none =>
      (st, [Effect.loadPCDCall file_name,
            Effect.logError ("Failed to read PCD file: " ++ file_name)])
  | some cloud =>
      ({ st with global_map := cloud },
       [Effect.loadPCDCall file_name, Effect.logInfo "Loaded global map"])

/-- Lines 19-72, the constructor: parameter resolution, empty-cloud
allocation, `loadGlobalMap`, then downsampling / covariance estimation /
KdTree construction for the target.  The subscription and the two wall
timers become the `Event` alphabet of the trace semantics.  Modelled from
the spec: the header that declares `result_T_` is not under `src/`; the
spec states that `LatestResult` is initially Absent, and the code's
Absent test is `result_T_.isZero()` (line 137), so `result_T_` starts as
the zero matrix.  The `register_` settings start at the external
library's defaults, which the node overwrites before every use
(lines 116-117); their initial value, written 0 here, is never read. -/
def initNode (env : Env) (p : Params) : NodeState × List Effect :=
  let cfg := getConfig p
  let st0 : NodeState :=
    { cfg := cfg
      registered_scan := []
      global_map := []
      target := []
      target_tree := buildKdTree [] cfg.num_threads
      source := none
      source_tree := none
      last_scan_time := 0
      result_T := zeroMat4
      reg_num_threads := 0
      reg_max_dist_sq := 0
      ghost_result_stamp := none }
  let load := loadGlobalMap env st0 cfg.prior_pcd_file
  let st1 := load.1
  let target0 := env.voxelgrid_sampling st1.global_map cfg.global_leaf_size
  let target1 := env.estimate_covariances target0 cfg.num_neighbors cfg.num_threads
  ({ st1 with
      target := target1
      target_tree := buildKdTree target1 cfg.num_threads },
   load.2)

/-- Lines 85-103: store the scan stamp and the raw cloud, then downsample,
estimate covariances, and build the source KdTree. -/
def registeredPcdCallback (env : Env) (st : NodeState) (msg : ScanMsg) :
    NodeState × List Effect :=
  let st1 := { st with last_scan_time := msg.stamp, registered_scan := msg.cloud }
  let src0 := env.voxelgrid_sampling st1.registered_scan st1.cfg.registered_leaf_size
  let src1 := env.estimate_covariances src0 st1.cfg.num_neighbors st1.cfg.num_threads
  ({ st1 with
      source := some src1
      source_tree := some (buildKdTree src1 st1.cfg.num_threads) },
   [])

/-- Lines 110-128: skip silently if the source cloud or its tree is
absent; otherwise configure `register_`, call `align` (target, source,
target tree, identity initial guess); on non-convergence warn and return,
on convergence store the matrix into `result_T_`. -/
def performRegistration (env : Env) (st : NodeState) : NodeState × List Effect :=
  match st.source, st.source_tree with
  | some src, some _tr =>
      let st1 := { st with
        reg_num_threads := st.cfg.num_threads
        reg_max_dist_sq := st.cfg.max_dist_sq }
      let result := env.align st1.target src st1.target_tree Iso3.id
        st1.reg_num_threads st1.reg_max_dist_sq
      if result.converged then
        ({ st1 with
            result_T := result.T_target_source.matrix
            ghost_result_stamp := some st1.last_scan_time },
         [Effect.alignCall Iso3.id])
      else
        (st1, [Effect.alignCall Iso3.id, Effect.logWarn "GICP did not converge."])
  | _, _ => (st, [])

/-- Lines 135-158: if `result_T_` is (still) zero, emit nothing;
otherwise broadcast a transform stamped with `last_scan_time_`, frames
`map_frame_id_` → `odom_frame_id_`, translation from the fourth column
and rotation from the upper-left 3×3 block of `result_T_`. -/
def publishTransform (st : NodeState) : NodeState × List Effect :=
  if st.result_T.isZero then (st, [])
  else
    (st, [Effect.sendTransform
      { stamp := st.last_scan_time
        frame_id := st.cfg.map_frame_id
        child_frame_id := st.cfg.odom_frame_id
        translation := fun i => st.result_T (Fin.castLE (by omega) i) 3
        rotation := fun i j =>
          st.result_T (Fin.castLE (by omega) i) (Fin.castLE (by omega) j) }])

/-- The node's event alphabet: a scan arriving on the subscription, a
tick of the 2 Hz registration timer, a tick of the 20 Hz publish timer.
ROS 2 runs a component's callbacks on a single-threaded executor, so an
execution of the node is a sequence of these events. -/
inductive Event where
  | scan (msg : ScanMsg)
  | alignTick
  | publishTick

/-- Dispatch one event to its handler. -/
def stepEvent (env : Env) (st : NodeState) : Event → NodeState × List Effect
  | Event.scan msg => registeredPcdCallback env st msg
  | Event.alignTick => performRegistration env st
  | Event.publishTick => publishTransform st

/-- Run a sequence of events, accumulating the emitted effects. -/
def run (env : Env) (st : NodeState) : List Event → NodeState × List Effect
  | [] => (st, [])
  | e :: es =>
      let step := stepEvent env st e
      let rest := run env step.1 es
      (rest.1, step.2 ++ rest.2)

/-- Classifier: is this effect an `align` invocation? -/
def isAlignCall : Effect → Bool
  | Effect.alignCall _ => true
  | _ => false

/-- Classifier: is this effect a broadcast transform? -/
def isSend : Effect → Bool
  | Effect.sendTransform _ => true
  | _ => false

/-- Classifier: is this effect a PCD-load invocation? -/
def isLoadCall : Effect → Bool
  | Effect.loadPCDCall _ => true
  | _ => false

/-- Classifier: is this effect an error log line? -/
def isLogError : Effect → Bool
  | Effect.logError _ => true
  | _ => false

/-- Number of broadcast transforms in an effect list. -/
def countSends (effs : List Effect) : ℕ := (effs.filter isSend).length

/-- The stamps of the broadcast transforms in an effect list, in order. -/
def sendStamps (effs : List Effect) : List Time :=
  effs.filterMap fun e =>
    match e with
    | Effect.sendTransform t => some t.stamp
    | _ => none

/-- Classifier: is this event a publish-timer tick? -/
def isPublishTick : Event → Bool
  | Event.publishTick => true
  | _ => false

/-- Number of publish-timer ticks in an event list. -/
def countPublishTicks (evs : List Event) : ℕ :=
  (evs.filter isPublishTick).length

/-- The registration the node would run from state `st` on a source cloud
`src`: `align` on the current target, `src`, the target tree, the
identity guess, and the just-written `register_` settings (which
lines 116-117 set to the configured values before every call). -/
def alignAt (env : Env) (st : NodeState) (src : CovCloud) : RegResult :=
  env.align st.target src st.target_tree Iso3.id st.cfg.num_threads st.cfg.max_dist_sq

/-- The event is an alignment tick whose registration converges from the
current state. -/
def ConvStep (env : Env) (st : NodeState) : Event → Prop
  | Event.alignTick =>
      ∃ src tr, st.source = some src ∧ st.source_tree = some tr ∧
        (alignAt env st src).converged = true
  | _ => False

/-- No alignment along this event sequence converges (each step judged
from the state the run has reached). -/
def NoConvergeRun (env : Env) (st : NodeState) : List Event → Prop
  | [] => True
  | e :: es => ¬ ConvStep env st e ∧ NoConvergeRun env (stepEvent env st e).1 es

/-- Lift a raw cloud to a covariance cloud with zero covariance blocks
(used only to build concrete oracle environments for witnesses). -/
def liftCloud (c : Cloud) : CovCloud :=
  c.map fun pt => { pos := pt, cov := fun _ _ => 0 }

/-- A concrete environment whose `align` never converges. -/
def envDiverge : Env :=
  { loadPCD := fun _ => some []
    voxelgrid_sampling := fun c _ => liftCloud c
    estimate_covariances := fun c _ _ => c
    align := fun _ _ _ g _ _ => { converged := false, T_target_source := g } }

/-- A concrete environment whose `align` always converges to the identity
transform. -/
def envConvergeId : Env :=
  { envDiverge with
      align := fun _ _ _ _ _ _ => { converged := true, T_target_source := Iso3.id } }

/-- A concrete environment whose PCD loader fails on every path and
whose `align` never converges. -/
def envLoadFail : Env := { envDiverge with loadPCD := fun _ => none }

/-- All parameters left unset: every default applies. -/
def noParams : Params :=
  { num_threads := none
    num_neighbors := none
    global_leaf_size := none
    registered_leaf_size := none
    max_dist_sq := none
    map_frame_id := none
    odom_frame_id := none
    prior_pcd_file := none }

/-- The state of a freshly constructed node, after one empty scan has
been ingested (so a source snapshot is installed), for a given oracle
environment. -/
def stWithSource (env : Env) : NodeState :=
  (run env (initNode env noParams).1 [Event.scan { stamp := 1, cloud := [] }]).1

/-! ### Basic lemmas about the embedded operations -/

theorem iso3_matrix_corner (T : Iso3) : Iso3.matrix T 3 3 = 1 := rfl

theorem iso3_matrix_bottom (T : Iso3) :
    Iso3.matrix T 3 0 = 0 ∧ Iso3.matrix T 3 1 = 0 ∧ Iso3.matrix T 3 2 = 0 :=
  ⟨rfl, rfl, rfl⟩

/-- A homogeneous rigid-transform matrix is never the zero matrix: its
(3,3) entry is 1. -/
theorem iso3_matrix_not_zero (T : Iso3) : (Iso3.matrix T).isZero = false := by
  unfold Mat4.isZero
  rw [decide_eq_false_iff_not]
  intro h
  have h33 := h 3 3
  rw [iso3_matrix_corner] at h33
  exact one_ne_zero h33

theorem zeroMat4_isZero : zeroMat4.isZero = true := by decide

/-- A cycle of `performRegistration` with no source snapshot installed is
a no-op: the state is returned unchanged and no effect is emitted. -/
theorem perform_skip (env : Env) (st : NodeState)
    (h : st.source = none ∨ st.source_tree = none) :
    performRegistration env st = (st, []) := by
  rcases hs : st.source with _ | src <;> rcases ht : st.source_tree with _ | tr <;>
    simp_all [performRegistration]

/-- `publishTransform` never modifies the state. -/
theorem publish_state (st : NodeState) : (publishTransform st).1 = st := by
  unfold publishTransform
  split <;> rfl

/-- With a zero `result_T_`, `publishTransform` emits nothing. -/
theorem publish_zero (st : NodeState) (h : st.result_T.isZero = true) :
    publishTransform st = (st, []) := by
  simp [publishTransform, h]

/-- With a nonzero `result_T_`, `publishTransform` emits exactly one
transform, stamped `last_scan_time_` and relating the configured frames. -/
theorem publish_nonzero (st : NodeState) (h : st.result_T.isZero = false) :
    (publishTransform st).2 =
      [Effect.sendTransform
        { stamp := st.last_scan_time
          frame_id := st.cfg.map_frame_id
          child_frame_id := st.cfg.odom_frame_id
          translation := fun i => st.result_T (Fin.castLE (by omega) i) 3
          rotation := fun i j =>
            st.result_T (Fin.castLE (by omega) i) (Fin.castLE (by omega) j) }] := by
  simp [publishTransform, h]

/-- `registeredPcdCallback` never touches `result_T_` or the ghost
stamp, and emits no effect. -/
theorem scan_result_unchanged (env : Env) (st : NodeState) (msg : ScanMsg) :
    (registeredPcdCallback env st msg).1.result_T = st.result_T ∧
    (registeredPcdCallback env st msg).1.ghost_result_stamp = st.ghost_result_stamp ∧
    (registeredPcdCallback env st msg).2 = [] :=
  ⟨rfl, rfl, rfl⟩

/-- Characterization of one registration cycle with a source installed:
`register_` is configured, `align` is invoked once with the identity
guess, and the result is stored exactly when it converged. -/
theorem perform_eq (env : Env) (st : NodeState) (src : CovCloud) (tr : KdTree)
    (hs : st.source = some src) (ht : st.source_tree = some tr) :
    performRegistration env st =
      (let st1 := { st with
        reg_num_threads := st.cfg.num_threads
        reg_max_dist_sq := st.cfg.max_dist_sq }
       if (alignAt env st src).converged then
         ({ st1 with
             result_T := (alignAt env st src).T_target_source.matrix
             ghost_result_stamp := some st1.last_scan_time },
          [Effect.alignCall Iso3.id])
       else
         (st1, [Effect.alignCall Iso3.id, Effect.logWarn "GICP did not converge."])) := by
  unfold performRegistration alignAt
  rw [hs, ht]

/-- Case analysis of one registration cycle: either some installed source
converged and `result_T_` now holds that result's matrix (tagged, via the
ghost field, with the current `last_scan_time_`), or `result_T_` and the
ghost stamp are unchanged. -/
theorem perform_cases (env : Env) (st : NodeState) :
    (∃ src tr, st.source = some src ∧ st.source_tree = some tr ∧
        (alignAt env st src).converged = true ∧
        (performRegistration env st).1.result_T = (alignAt env st src).T_target_source.matrix ∧
        (performRegistration env st).1.ghost_result_stamp = some st.last_scan_time) ∨
    ((performRegistration env st).1.result_T = st.result_T ∧
        (performRegistration env st).1.ghost_result_stamp = st.ghost_result_stamp) := by
  rcases hs : st.source with _ | src
  · right
    rw [perform_skip env st (Or.inl hs)]
    exact ⟨rfl, rfl⟩
  · rcases ht : st.source_tree with _ | tr
    · right
      rw [perform_skip env st (Or.inr ht)]
      exact ⟨rfl, rfl⟩
    · rw [perform_eq env st src tr hs ht]
      rcases hc : (alignAt env st src).converged with _ | _
      · right
        simp [hc]
      · left
        refine ⟨src, tr, rfl, rfl, hc, ?_, ?_⟩ <;> simp [hc]

/-- A non-convergent registration cycle leaves `result_T_` unchanged. -/
theorem perform_unconverged (env : Env) (st : NodeState) (src : CovCloud) (tr : KdTree)
    (hs : st.source = some src) (ht : st.source_tree = some tr)
    (hc : (alignAt env st src).converged = false) :
    (performRegistration env st).1.result_T = st.result_T := by
  rw [perform_eq env st src tr hs ht]
  simp [hc]

/-- A convergent registration cycle stores the result's matrix and tags
the ghost stamp with the current `last_scan_time_`. -/
theorem perform_converged (env : Env) (st : NodeState) (src : CovCloud) (tr : KdTree)
    (hs : st.source = some src) (ht : st.source_tree = some tr)
    (hc : (alignAt env st src).converged = true) :
    (performRegistration env st).1.result_T = (alignAt env st src).T_target_source.matrix ∧
    (performRegistration env st).1.ghost_result_stamp = some st.last_scan_time := by
  rw [perform_eq env st src tr hs ht]
  constructor <;> simp [hc]

theorem countSends_append (a b : List Effect) :
    countSends (a ++ b) = countSends a + countSends b := by
  simp [countSends, List.filter_append]

/-- A registration cycle broadcasts nothing (only `publishTransform`
broadcasts). -/
theorem perform_no_send (env : Env) (st : NodeState) :
    countSends (performRegistration env st).2 = 0 := by
  rcases hs : st.source with _ | src
  · rw [perform_skip env st (Or.inl hs)]
    rfl
  · rcases ht : st.source_tree with _ | tr
    · rw [perform_skip env st (Or.inr ht)]
      rfl
    · rw [perform_eq env st src tr hs ht]
      rcases hc : (alignAt env st src).converged with _ | _ <;> simp [hc, countSends, isSend]

/-- No handler of the node ever re-invokes the PCD loader: the load
happens once, in the constructor. -/
theorem step_no_load (env : Env) (st : NodeState) (e : Event) :
    ((stepEvent env st e).2.any isLoadCall) = false := by
  cases e with
  | scan msg => rfl
  | alignTick =>
      show ((performRegistration env st).2.any isLoadCall) = false
      rcases hs : st.source with _ | src
      · rw [perform_skip env st (Or.inl hs)]
        rfl
      · rcases ht : st.source_tree with _ | tr
        · rw [perform_skip env st (Or.inr ht)]
          rfl
        · rw [perform_eq env st src tr hs ht]
          rcases hc : (alignAt env st src).converged with _ | _ <;> simp [hc, isLoadCall]
  | publishTick =>
      show ((publishTransform st).2.any isLoadCall) = false
      rcases hz : st.result_T.isZero with _ | _
      · rw [publish_nonzero st hz]
        rfl
      · rw [publish_zero st hz]
        rfl

/-- Along any event sequence the node never re-invokes the PCD loader. -/
theorem run_no_load (env : Env) (st : NodeState) (evs : List Event) :
    ((run env st evs).2.any isLoadCall) = false := by
  induction evs generalizing st with
  | nil => rfl
  | cons e es ih =>
      simp only [run, List.any_append, Bool.or_eq_false_iff]
      exact ⟨step_no_load env st e, ih (stepEvent env st e).1⟩

/-- Once `result_T_` is nonzero, every step keeps it nonzero, and the
step broadcasts a transform exactly when it is a publish tick. -/
theorem step_nonzero (env : Env) (st : NodeState) (e : Event)
    (h : st.result_T.isZero = false) :
    ((stepEvent env st e).1.result_T).isZero = false ∧
    countSends (stepEvent env st e).2 = (if isPublishTick e then 1 else 0) := by
  cases e with
  | scan msg =>
      refine ⟨?_, ?_⟩
      · rw [show (stepEvent env st (Event.scan msg)).1 = (registeredPcdCallback env st msg).1
          from rfl, (scan_result_unchanged env st msg).1]
        exact h
      · rw [show (stepEvent env st (Event.scan msg)).2 = (registeredPcdCallback env st msg).2
          from rfl, (scan_result_unchanged env st msg).2.2]
        rfl
  | alignTick =>
      refine ⟨?_, ?_⟩
      · rcases perform_cases env st with ⟨src, tr, hs, ht, hc, hT, _⟩ | ⟨hT, _⟩
        · rw [show (stepEvent env st Event.alignTick).1 = (performRegistration env st).1 from rfl,
            hT]
          exact iso3_matrix_not_zero _
        · rw [show (stepEvent env st Event.alignTick).1 = (performRegistration env st).1 from rfl,
            hT]
          exact h
      · exact perform_no_send env st
  | publishTick =>
      refine ⟨?_, ?_⟩
      · rw [show (stepEvent env st Event.publishTick).1 = (publishTransform st).1 from rfl,
          publish_state st]
        exact h
      · rw [show (stepEvent env st Event.publishTick).2 = (publishTransform st).2 from rfl,
          publish_nonzero st h]
        rfl

/-- While `result_T_` is zero and the step is not a convergent alignment,
`result_T_` stays zero and nothing is broadcast. -/
theorem step_zero_noconv (env : Env) (st : NodeState) (e : Event)
    (h : st.result_T.isZero = true) (hnc : ¬ ConvStep env st e) :
    ((stepEvent env st e).1.result_T).isZero = true ∧
    countSends (stepEvent env st e).2 = 0 := by
  cases e with
  | scan msg =>
      refine ⟨?_, ?_⟩
      · rw [show (stepEvent env st (Event.scan msg)).1 = (registeredPcdCallback env st msg).1
          from rfl, (scan_result_unchanged env st msg).1]
        exact h
      · rw [show (stepEvent env st (Event.scan msg)).2 = (registeredPcdCallback env st msg).2
          from rfl, (scan_result_unchanged env st msg).2.2]
        rfl
  | alignTick =>
      refine ⟨?_, perform_no_send env st⟩
      rcases perform_cases env st with ⟨src, tr, hs, ht, hc, hT, _⟩ | ⟨hT, _⟩
      · exact absurd ⟨src, tr, hs, ht, hc⟩ hnc
      · rw [show (stepEvent env st Event.alignTick).1 = (performRegistration env st).1 from rfl,
          hT]
        exact h
  | publishTick =>
      rw [show stepEvent env st Event.publishTick = publishTransform st from rfl,
        publish_zero st h]
      exact ⟨h, rfl⟩

/-- Trace version: from a nonzero `result_T_`, it stays nonzero forever
and exactly one transform is broadcast per publish tick. -/
theorem run_nonzero (env : Env) (st : NodeState) (evs : List Event)
    (h : st.result_T.isZero = false) :
    (((run env st evs).1.result_T).isZero = false) ∧
    countSends (run env st evs).2 = countPublishTicks evs := by
  induction evs generalizing st with
  | nil => exact ⟨h, rfl⟩
  | cons e es ih =>
      have hstep := step_nonzero env st e h
      have hrest := ih (stepEvent env st e).1 hstep.1
      refine ⟨hrest.1, ?_⟩
      simp only [run, countSends_append, hstep.2, hrest.2, countPublishTicks, List.filter]
      cases e <;> simp [isPublishTick, countPublishTicks, Nat.add_comm]

/-- Trace version: from a zero `result_T_`, as long as no alignment in
the run converges, `result_T_` stays zero and nothing is broadcast. -/
theorem run_zero_noconv (env : Env) (st : NodeState) (evs : List Event)
    (h : st.result_T.isZero = true) (hnc : NoConvergeRun env st evs) :
    (((run env st evs).1.result_T).isZero = true) ∧
    countSends (run env st evs).2 = 0 := by
  induction evs generalizing st with
  | nil => exact ⟨h, rfl⟩
  | cons e es ih =>
      have hstep := step_zero_noconv env st e h hnc.1
      have hrest := ih (stepEvent env st e).1 hstep.1 hnc.2
      refine ⟨hrest.1, ?_⟩
      simp only [run, countSends_append, hstep.2, hrest.2]

/-- The constructor leaves `result_T_` zero-initialized, whatever the
parameters and the load outcome. -/
theorem init_result_zero (env : Env) (p : Params) :
    (initNode env p).1.result_T = zeroMat4 := by
  simp only [initNode, loadGlobalMap]
  rcases h : env.loadPCD (getConfig p).prior_pcd_file with _ | cloud <;> simp [h]

/-! ### Claim theorems -/

/-- Claim C1: a registration cycle whose result has `converged = false`
leaves the stored latest result `result_T_` completely unchanged; more
generally `result_T_` changes only when a registration cycle converges,
in which case it is overwritten by that newer convergent result's matrix
(never cleared); and the publish handler never modifies the state, so it
keeps emitting from whatever value was stored before. -/
theorem nonconvergence_leaves_result_untouched_C1 :
    (∀ (env : Env) (st : NodeState) (src : CovCloud) (tr : KdTree),
        st.source = some src → st.source_tree = some tr →
        (alignAt env st src).converged = false →
        (performRegistration env st).1.result_T = st.result_T) ∧
    (∀ (env : Env) (st : NodeState) (e : Event),
        (stepEvent env st e).1.result_T ≠ st.result_T →
        ∃ src tr, st.source = some src ∧ st.source_tree = some tr ∧
          (alignAt env st src).converged = true ∧
          (stepEvent env st e).1.result_T = (alignAt env st src).T_target_source.matrix) ∧
    (∀ st : NodeState, (publishTransform st).1 = st) := by
  refine ⟨perform_unconverged, ?_, publish_state⟩
  intro env st e hne
  cases e with
  | scan msg => exact absurd (scan_result_unchanged env st msg).1 hne
  | alignTick =>
      rcases perform_cases env st with ⟨src, tr, hs, ht, hc, hT, _⟩ | ⟨hT, _⟩
      · exact ⟨src, tr, hs, ht, hc, hT⟩
      · exact absurd hT hne
  | publishTick => exact absurd (congrArg NodeState.result_T (publish_state st)) hne

theorem nonconvergence_leaves_result_untouched_C1_witness :
    (performRegistration envDiverge (stWithSource envDiverge)).1.result_T
        = (stWithSource envDiverge).result_T ∧
    (∃ src tr, (stWithSource envConvergeId).source = some src ∧
        (stWithSource envConvergeId).source_tree = some tr ∧
        (alignAt envConvergeId (stWithSource envConvergeId) src).converged = true ∧
        (stepEvent envConvergeId (stWithSource envConvergeId) Event.alignTick).1.result_T
          = (alignAt envConvergeId (stWithSource envConvergeId) src).T_target_source.matrix) :=
  ⟨nonconvergence_leaves_result_untouched_C1.1 envDiverge (stWithSource envDiverge)
      (liftCloud []) (buildKdTree (liftCloud []) 4) rfl rfl rfl,
   nonconvergence_leaves_result_untouched_C1.2.1 envConvergeId (stWithSource envConvergeId)
      Event.alignTick (by decide)⟩

/-- Claim C2: `result_T_` starts at the Absent (zero) sentinel and, while
no alignment converges, every publish tick emits nothing; after any
convergent alignment — including one that converges to the identity
transform — the stored matrix is never the Absent sentinel (it always
has a 1 in the homogeneous corner), so it is published and thus
distinguishable from the never-converged state. -/
theorem absent_identity_distinguishable_C2 :
    (∀ (env : Env) (p : Params), ((initNode env p).1.result_T).isZero = true) ∧
    (∀ st : NodeState, st.result_T.isZero = true → publishTransform st = (st, [])) ∧
    (∀ (env : Env) (st : NodeState) (evs : List Event),
        st.result_T.isZero = true → NoConvergeRun env st evs →
        countSends (run env st evs).2 = 0) ∧
    (∀ (env : Env) (st : NodeState) (src : CovCloud) (tr : KdTree),
        st.source = some src → st.source_tree = some tr →
        (alignAt env st src).converged = true →
        ((performRegistration env st).1.result_T).isZero = false ∧
        countSends (publishTransform (performRegistration env st).1).2 = 1) := by
  refine ⟨?_, publish_zero, ?_, ?_⟩
  · intro env p
    rw [init_result_zero]
    exact zeroMat4_isZero
  · exact fun env st evs h hnc => (run_zero_noconv env st evs h hnc).2
  · intro env st src tr hs ht hc
    have hT := (perform_converged env st src tr hs ht hc).1
    have hz : ((performRegistration env st).1.result_T).isZero = false := by
      rw [hT]
      exact iso3_matrix_not_zero _
    refine ⟨hz, ?_⟩
    rw [publish_nonzero _ hz]
    rfl

theorem absent_identity_distinguishable_C2_witness :
    ((initNode envConvergeId noParams).1.result_T).isZero = true ∧
    publishTransform (initNode envConvergeId noParams).1
        = ((initNode envConvergeId noParams).1, []) ∧
    countSends (run envDiverge (initNode envDiverge noParams).1
        [Event.publishTick, Event.scan { stamp := 1, cloud := [] },
         Event.alignTick, Event.publishTick]).2 = 0 ∧
    (((performRegistration envConvergeId (stWithSource envConvergeId)).1.result_T).isZero = false ∧
      countSends (publishTransform
        (performRegistration envConvergeId (stWithSource envConvergeId)).1).2 = 1) :=
  ⟨absent_identity_distinguishable_C2.1 envConvergeId noParams,
   absent_identity_distinguishable_C2.2.1 (initNode envConvergeId noParams).1 (by decide),
   absent_identity_distinguishable_C2.2.2.1 envDiverge (initNode envDiverge noParams).1
      [Event.publishTick, Event.scan { stamp := 1, cloud := [] },
       Event.alignTick, Event.publishTick] (by decide)
      ⟨fun h => h, fun h => h,
       by rintro ⟨src, tr, _, _, hc⟩; exact Bool.noConfusion hc,
       fun h => h, trivial⟩,
   absent_identity_distinguishable_C2.2.2.2 envConvergeId (stWithSource envConvergeId)
      (liftCloud []) (buildKdTree (liftCloud []) 4) rfl rfl rfl⟩

/-- The event sequence used to exhibit behaviour after a failed map
load: a scan arrives, then an alignment tick fires, then a publish tick. -/
def failTrace : List Event :=
  [Event.scan { stamp := 1, cloud := [] }, Event.alignTick, Event.publishTick]

/-- Claim C3 counterexample: with a PCD loader that fails, the
constructor logs an error — yet once a scan has arrived, the very next
alignment cycle still invokes the solver (an `alignCall` effect is
emitted), so it is false that "no alignment ever runs" after a map load
failure. -/
theorem load_failure_alignment_still_runs_C3_cex :
    envLoadFail.loadPCD (getConfig noParams).prior_pcd_file = none ∧
    ((initNode envLoadFail noParams).2.any isLogError) = true ∧
    ((run envLoadFail (initNode envLoadFail noParams).1 failTrace).2.any isAlignCall) = true :=
  ⟨rfl, rfl, rfl⟩

/-- Claim C3 amended: if loading the reference map fails, an error is
reported and the pipeline stays alive with no retry (the loader is never
invoked again), and the constructor completes with an empty map and the
Absent result, so nothing is published while no alignment converges; but
alignment is not disabled — a cycle with no source is skipped, and once
a scan has installed a source, alignment cycles still invoke the solver
against the target built from the empty map. -/
theorem load_failure_behavior_C3 :
    ∀ (env : Env) (p : Params),
      env.loadPCD (getConfig p).prior_pcd_file = none →
      ((initNode env p).2.any isLogError) = true ∧
      (initNode env p).1.global_map = [] ∧
      ((initNode env p).1.result_T).isZero = true ∧
      (∀ (st : NodeState) (evs : List Event), ((run env st evs).2.any isLoadCall) = false) ∧
      (∀ st : NodeState, st.source = none ∨ st.source_tree = none →
          performRegistration env st = (st, [])) ∧
      (∀ (st : NodeState) (src : CovCloud) (tr : KdTree),
          st.source = some src → st.source_tree = some tr →
          ((performRegistration env st).2.any isAlignCall) = true) ∧
      (∀ st : NodeState, st.result_T.isZero = true → publishTransform st = (st, [])) := by
  intro env p h
  refine ⟨?_, ?_, ?_, fun st evs => run_no_load env st evs, perform_skip env, ?_, publish_zero⟩
  · simp [initNode, loadGlobalMap, h, isLogError]
  · simp [initNode, loadGlobalMap, h]
  · rw [init_result_zero]
    exact zeroMat4_isZero
  · intro st src tr hs ht
    rw [perform_eq env st src tr hs ht]
    rcases hc : (alignAt env st src).converged with _ | _ <;> simp [hc, isAlignCall]

theorem load_failure_behavior_C3_witness :
    ((initNode envLoadFail noParams).2.any isLogError) = true ∧
    (initNode envLoadFail noParams).1.global_map = [] ∧
    ((initNode envLoadFail noParams).1.result_T).isZero = true :=
  ⟨(load_failure_behavior_C3 envLoadFail noParams rfl).1,
   (load_failure_behavior_C3 envLoadFail noParams rfl).2.1,
   (load_failure_behavior_C3 envLoadFail noParams rfl).2.2.1⟩

/-- The event sequence exhibiting a stale stamp: the alignment converges
on the scan stamped 1, then a newer scan stamped 2 arrives with no
further alignment before the publish tick. -/
def staleTrace : List Event :=
  [Event.scan { stamp := 1, cloud := [] }, Event.alignTick,
   Event.scan { stamp := 2, cloud := [] }, Event.publishTick]

/-- Claim C4 counterexample: the transform stored by the alignment was
produced from the scan stamped 1 (ghost stamp), yet the emitted message
carries stamp 2 — the stamp of a later scan that produced no stored
transform.  So the emitted timestamp is not the originating scan's. -/
theorem stamp_not_originating_scan_C4_cex :
    sendStamps (run envConvergeId (initNode envConvergeId noParams).1 staleTrace).2 = [2] ∧
    (run envConvergeId (initNode envConvergeId noParams).1 staleTrace).1.ghost_result_stamp
        = some 1 ∧
    (2 : Time) ≠ (1 : Time) :=
  ⟨rfl, rfl, by decide⟩

/-- Message check used by the amended C4: a broadcast transform carries
the current `last_scan_time_` and the configured frame identifiers. -/
def stampAndFramesOk (st : NodeState) : Effect → Bool
  | Effect.sendTransform t =>
      decide (t.stamp = st.last_scan_time ∧ t.frame_id = st.cfg.map_frame_id ∧
        t.child_frame_id = st.cfg.odom_frame_id)
  | _ => true

/-- Claim C4 amended: every emitted transform message is stamped with
the timestamp of the most recently received scan (`last_scan_time_`),
which can be newer than the scan that produced the stored transform, and
its parent/child frames are the configured `map_frame_id` and
`odom_frame_id`. -/
theorem stamp_is_latest_scan_C4 :
    ∀ (env : Env) (st : NodeState) (e : Event),
      ((stepEvent env st e).2.all (stampAndFramesOk st)) = true := by
  intro env st e
  cases e with
  | scan msg => rfl
  | alignTick =>
      show ((performRegistration env st).2.all (stampAndFramesOk st)) = true
      rcases hs : st.source with _ | src
      · rw [perform_skip env st (Or.inl hs)]
        rfl
      · rcases ht : st.source_tree with _ | tr
        · rw [perform_skip env st (Or.inr ht)]
          rfl
        · rw [perform_eq env st src tr hs ht]
          rcases hc : (alignAt env st src).converged with _ | _ <;>
            simp [hc, stampAndFramesOk]
  | publishTick =>
      show ((publishTransform st).2.all (stampAndFramesOk st)) = true
      rcases hz : st.result_T.isZero with _ | _
      · rw [publish_nonzero st hz]
        simp [stampAndFramesOk]
      · rw [publish_zero st hz]
        rfl

/-- Claim C6: an alignment cycle that fires while no source snapshot is
installed is silently skipped — the state (including the latest result)
is returned unchanged and no effect (no solver call, no log line, no
message) is emitted. -/
theorem no_source_cycle_skipped_C6 :
    ∀ (env : Env) (st : NodeState),
      st.source = none ∨ st.source_tree = none →
      performRegistration env st = (st, []) :=
  perform_skip

theorem no_source_cycle_skipped_C6_witness :
    performRegistration envDiverge (initNode envDiverge noParams).1
      = ((initNode envDiverge noParams).1, []) :=
  no_source_cycle_skipped_C6 envDiverge (initNode envDiverge noParams).1 (Or.inl rfl)

/-- Guess check used by C7: an `align` invocation is seeded with the
identity transform. -/
def guessIsIdentity : Effect → Bool
  | Effect.alignCall g => decide (g = Iso3.id)
  | _ => true

/-- Claim C7: every solver invocation made by any step of the node is
seeded with the identity transform as initial guess — in particular
never with the previously converged result, whatever `result_T_`
holds. -/
theorem align_always_seeded_identity_C7 :
    ∀ (env : Env) (st : NodeState) (e : Event),
      ((stepEvent env st e).2.all guessIsIdentity) = true := by
  intro env st e
  cases e with
  | scan msg => rfl
  | alignTick =>
      show ((performRegistration env st).2.all guessIsIdentity) = true
      rcases hs : st.source with _ | src
      · rw [perform_skip env st (Or.inl hs)]
        rfl
      · rcases ht : st.source_tree with _ | tr
        · rw [perform_skip env st (Or.inr ht)]
          rfl
        · rw [perform_eq env st src tr hs ht]
          rcases hc : (alignAt env st src).converged with _ | _ <;>
            simp [hc, guessIsIdentity]
  | publishTick =>
      show ((publishTransform st).2.all guessIsIdentity) = true
      rcases hz : st.result_T.isZero with _ | _
      · rw [publish_nonzero st hz]
        rfl
      · rw [publish_zero st hz]
        rfl

/-- A parameter set supplying the (per the spec, invalid) value
`num_threads = 0`. -/
def badParams : Params := { noParams with num_threads := some 0 }

/-- Claim C8 counterexample: the supplied value `num_threads = 0` — which
violates the "integer ≥ 1" validity condition — is not rejected at
startup: it lands in the node's configuration and, after a scan and a
registration cycle, in the solver's configured reduction thread count.
No validation exists anywhere in the startup path. -/
theorem config_not_validated_C8_cex :
    (getConfig badParams).num_threads = 0 ∧
    ¬ (1 ≤ (getConfig badParams).num_threads) ∧
    (initNode envDiverge badParams).1.cfg.num_threads = 0 ∧
    (run envDiverge (initNode envDiverge badParams).1
        [Event.scan { stamp := 1, cloud := [] }, Event.alignTick]).1.reg_num_threads = 0 :=
  ⟨rfl, by decide, rfl, rfl⟩

/-- Claim C8 amended: the configuration is read at startup by resolving
each parameter against its default, with no validation of any kind: the
resolved values — whatever they are, including non-positive ones — are
installed unchanged in the node's configuration and used by the
pipeline. -/
theorem config_never_validated_C8 :
    ∀ (p : Params) (env : Env),
      (initNode env p).1.cfg = getConfig p ∧
      (getConfig p).num_threads = p.num_threads.getD 4 ∧
      (getConfig p).num_neighbors = p.num_neighbors.getD 20 ∧
      (getConfig p).global_leaf_size = p.global_leaf_size.getD 0.25 ∧
      (getConfig p).registered_leaf_size = p.registered_leaf_size.getD 0.25 ∧
      (getConfig p).max_dist_sq = p.max_dist_sq.getD 1.0 := by
  intro p env
  refine ⟨?_, rfl, rfl, rfl, rfl, rfl⟩
  simp only [initNode, loadGlobalMap]
  rcases h : env.loadPCD (getConfig p).prior_pcd_file with _ | cloud <;> simp [h]

/-- Claim C9: with no parameter supplied, the startup defaults are
exactly `num_threads = 4`, `num_neighbors = 20`,
`global_leaf_size = 0.25`, `registered_leaf_size = 0.25`,
`max_dist_sq = 1.0`, `map_frame_id = "map"`, `odom_frame_id = "odom"`,
`prior_pcd_file = ""`. -/
theorem config_defaults_C9 :
    getConfig noParams =
      { num_threads := 4
        num_neighbors := 20
        global_leaf_size := 0.25
        registered_leaf_size := 0.25
        max_dist_sq := 1.0
        map_frame_id := "map"
        odom_frame_id := "odom"
        prior_pcd_file := "" } := rfl

/-- Claim C10: Absent is encoded as the all-zero matrix (`result_T_` is
zero-initialized and `zeroMat4` passes `isZero`); every matrix a
convergent alignment stores is the homogeneous matrix of a rigid
transform, whose bottom row is (0,0,0,1) and which therefore never
passes `isZero`; consequently, from any state whose stored result is
nonzero, it stays nonzero forever and every subsequent publish tick
emits exactly one transform. -/
theorem zero_sentinel_and_persistence_C10 :
    (∀ (env : Env) (p : Params), (initNode env p).1.result_T = zeroMat4) ∧
    (zeroMat4.isZero = true) ∧
    (∀ T : Iso3, Iso3.matrix T 3 0 = 0 ∧ Iso3.matrix T 3 1 = 0 ∧
        Iso3.matrix T 3 2 = 0 ∧ Iso3.matrix T 3 3 = 1 ∧ (Iso3.matrix T).isZero = false) ∧
    (∀ (env : Env) (st : NodeState) (e : Event),
        (stepEvent env st e).1.result_T ≠ st.result_T →
        ∃ T : Iso3, (stepEvent env st e).1.result_T = Iso3.matrix T) ∧
    (∀ (env : Env) (st : NodeState) (evs : List Event),
        st.result_T.isZero = false →
        (((run env st evs).1.result_T).isZero = false) ∧
        countSends (run env st evs).2 = countPublishTicks evs) := by
  refine ⟨init_result_zero, zeroMat4_isZero, ?_, ?_, run_nonzero⟩
  · intro T
    exact ⟨(iso3_matrix_bottom T).1, (iso3_matrix_bottom T).2.1, (iso3_matrix_bottom T).2.2,
      iso3_matrix_corner T, iso3_matrix_not_zero T⟩
  · intro env st e hne
    cases e with
    | scan msg => exact absurd (scan_result_unchanged env st msg).1 hne
    | alignTick =>
        rcases perform_cases env st with ⟨src, tr, hs, ht, hc, hT, _⟩ | ⟨hT, _⟩
        · exact ⟨(alignAt env st src).T_target_source, hT⟩
        · exact absurd hT hne
    | publishTick => exact absurd (congrArg NodeState.result_T (publish_state st)) hne

/-- The node state after a convergent alignment (used by witnesses). -/
def stConverged : NodeState :=
  (stepEvent envConvergeId (stWithSource envConvergeId) Event.alignTick).1

theorem zero_sentinel_and_persistence_C10_witness :
    (∃ T : Iso3,
        (stepEvent envConvergeId (stWithSource envConvergeId) Event.alignTick).1.result_T
          = Iso3.matrix T) ∧
    ((((run envConvergeId stConverged
        [Event.publishTick, Event.scan { stamp := 5, cloud := [] },
         Event.publishTick]).1.result_T).isZero = false) ∧
      countSends (run envConvergeId stConverged
        [Event.publishTick, Event.scan { stamp := 5, cloud := [] },
         Event.publishTick]).2 = 2) :=
  ⟨zero_sentinel_and_persistence_C10.2.2.2.1 envConvergeId (stWithSource envConvergeId)
      Event.alignTick (by decide),
   zero_sentinel_and_persistence_C10.2.2.2.2 envConvergeId stConverged
      [Event.publishTick, Event.scan { stamp := 5, cloud := [] }, Event.publishTick]
      (by decide)⟩
